import Mathlib

/-
Verification model of the Portfolio backend (Node.js + Express + Mongoose).

The repository holds two revisions of the single-file server:
  - V1: the older revision (src/unnamed/part_000) with per-route try/catch,
    404 checks, and a singular "category" field;
  - V2: the current revision (src/index.js, "UPDATED WITH AMEER AI") whose
    project/contact routes have no try/catch and no null checks, plus the
    POST /ai/chat route.

Mongoose/MongoDB is modelled as an association list keyed by Nat; a Mongo
ObjectId is either well formed (modelled as a Nat) or malformed (the raw
string), and casting a malformed id throws a CastError.  Timestamps are
omitted: no claim concerns them.  HTTP handlers are pure functions from
store state and request data to an outcome and the new store state; an
outcome is either a response the handler sends or a rejection that escapes
the async handler uncaught (the V2 routes have no try/catch, so a Mongoose
validation or cast rejection is never turned into a response by the
handler).
-/

set_option autoImplicit false

/-- A Mongo document id as received in the URL: either a well-formed
ObjectId (abstracted to a Nat) or a malformed string, which Mongoose fails
to cast and rejects with a CastError. -/
inductive DocId where
  | valid (n : Nat)
  | malformed (s : String)
  deriving DecidableEq

/-- The rejection reasons that can escape a route handler. -/
inductive JsError where
  | castError
  | validationError
  deriving DecidableEq

/-- ECMAScript whitespace as used by String.prototype.trim: the WhiteSpace
production (TAB VT FF SP NBSP ZWNBSP and Unicode Zs) plus the
LineTerminator production (LF CR LS PS). -/
def isJsWhitespace (c : Char) : Bool :=
  [' ', '\t', '\n', '\r', '\x0B', '\x0C', ' ', ' ', ' ',
   ' ', ' ', ' ', ' ', ' ', ' ', ' ',
   ' ', ' ', ' ', ' ', ' ', ' ', ' ',
   '　', '﻿'].contains c

/-- JavaScript String.prototype.trim: strip leading and trailing
ECMAScript whitespace. -/
def jsTrim (s : String) : String :=
  String.mk (((s.data.dropWhile isJsWhitespace).reverse.dropWhile
    isJsWhitespace).reverse)

namespace V2

/-- Project record per the current schema (src/index.js lines 36-51):
plural "categories", optional "image" defaulting to the empty string. -/
structure Project where
  name : String
  image : String
  categories : List String
  stack : String
  description : String
  liveLink : String
  sourceLink : String
  deriving DecidableEq

/-- A request body for POST/PUT on /projects: each schema path is either
present or absent. -/
structure ProjectBody where
  name? : Option String
  image? : Option String
  categories? : Option (List String)
  stack? : Option String
  description? : Option String
  liveLink? : Option String
  sourceLink? : Option String
  deriving DecidableEq

/-- The closed enum on the "categories" path (src/index.js line 42). -/
def categoryEnum : List String :=
  ["static", "fullstack", "ai", "automation", "hacking"]

/-- Document validation run by Project.create.  Mongoose semantics:
"name" has a trim setter, and the required validator on a String demands a
non-empty value, so a missing or all-whitespace name fails; "stack" and
"description" have no trim setter, so only a missing or empty-string value
fails; "categories" is an array path, which implicitly defaults to the
empty array, and the required validator on an array only rejects
null/undefined, so an omitted "categories" passes validation (with value
the empty array) while every present element must lie in the enum. -/
def createValid (b : ProjectBody) : Bool :=
  (match b.name? with
   | some s => jsTrim s != ""
   | none => false) &&
  (b.categories?.getD []).all (fun c => categoryEnum.contains c) &&
  (match b.stack? with
   | some s => s != ""
   | none => false) &&
  (match b.description? with
   | some s => s != ""
   | none => false)

/-- Project.create: validate, then build the document with setters and
defaults applied. -/
def create (b : ProjectBody) : Except JsError Project :=
  if createValid b then
    .ok { name := jsTrim (b.name?.getD ""),
          image := b.image?.getD "",
          categories := b.categories?.getD [],
          stack := b.stack?.getD "",
          description := b.description?.getD "",
          liveLink := b.liveLink?.getD "",
          sourceLink := b.sourceLink?.getD "" }
  else .error .validationError

/-- Update validation run by findByIdAndUpdate with runValidators: true.
Mongoose update validators only run on the paths present in the update,
and they run on the update arguments themselves, before and regardless of
whether any document matches the id. -/
def updateValid (b : ProjectBody) : Bool :=
  (match b.name? with
   | some s => jsTrim s != ""
   | none => true) &&
  (match b.categories? with
   | some cs => cs.all (fun c => categoryEnum.contains c)
   | none => true) &&
  (match b.stack? with
   | some s => s != ""
   | none => true) &&
  (match b.description? with
   | some s => s != ""
   | none => true)

/-- Apply an update body to a stored document (the fields a $set update
overwrites; the name setter trims the incoming value). -/
def merge (p : Project) (b : ProjectBody) : Project where
  name := match b.name? with
    | some s => jsTrim s
    | none => p.name
  image := b.image?.getD p.image
  categories := b.categories?.getD p.categories
  stack := b.stack?.getD p.stack
  description := b.description?.getD p.description
  liveLink := b.liveLink?.getD p.liveLink
  sourceLink := b.sourceLink?.getD p.sourceLink

/-- Stored contact message (src/index.js lines 53-60). -/
structure Contact where
  name : String
  email : String
  message : String
  deriving DecidableEq

/-- Request body for POST /contact. -/
structure ContactBody where
  name? : Option String
  email? : Option String
  message? : Option String
  deriving DecidableEq

/-- Contact.create validation: name, email and message are required
trimmed strings, so each must be present with a non-empty trimmed value. -/
def contactValid (b : ContactBody) : Bool :=
  (match b.name? with
   | some s => jsTrim s != ""
   | none => false) &&
  (match b.email? with
   | some s => jsTrim s != ""
   | none => false) &&
  (match b.message? with
   | some s => jsTrim s != ""
   | none => false)

/-- Contact.create: validate, then build the document with trim setters
applied. -/
def contactCreate (b : ContactBody) : Except JsError Contact :=
  if contactValid b then
    .ok { name := jsTrim (b.name?.getD ""),
          email := jsTrim (b.email?.getD ""),
          message := jsTrim (b.message?.getD "") }
  else .error .validationError

/-- JSON bodies the modelled routes send. -/
inductive Body where
  | jnull
  | project (p : Project)
  | success
  | err (error : String)
  deriving DecidableEq

/-- Outcome of one V2 route invocation: either the handler sends a
response, or a rejection escapes the async handler uncaught (the V2
project/contact routes have no try/catch, so no 4xx response is ever
produced for a failed cast or validation). -/
inductive Outcome where
  | resp (status : Nat) (body : Body)
  | unhandled (e : JsError)
  deriving DecidableEq

/-- The projects collection. Ids are unique. -/
abbrev Db := List (Nat × Project)

/-- The contacts collection. -/
abbrev CDb := List (Nat × Contact)

/-- POST /projects (src/index.js lines 127-130): Project.create, then
res.status(201).json(project).  No try/catch: a validation rejection
escapes and nothing is persisted. -/
def post_projects (db : Db) (b : ProjectBody) (newId : Nat) :
    Outcome × Db :=
  match create b with
  | .ok p => (.resp 201 (.project p), db ++ [(newId, p)])
  | .error e => (.unhandled e, db)

/-- PUT /projects/:id (src/index.js lines 132-138): findByIdAndUpdate with
runValidators.  A malformed id rejects with CastError and an invalid
update rejects with ValidationError, both escaping (no try/catch); when no
document has the id the call resolves to null and the handler answers
res.json(null), i.e. HTTP 200 with body null; on success the updated
document is returned. -/
def put_project (db : Db) (id : DocId) (b : ProjectBody) : Outcome × Db :=
  match id with
  | .malformed _ => (.unhandled .castError, db)
  | .valid n =>
    if updateValid b then
      match db.find? (fun r => r.1 == n) with
      | none => (.resp 200 .jnull, db)
      | some r =>
        (.resp 200 (.project (merge r.2 b)),
         db.map (fun q => if q.1 == n then (n, merge r.2 b) else q))
    else (.unhandled .validationError, db)

/-- DELETE /projects/:id (src/index.js lines 140-143): findByIdAndDelete
with its result discarded, then res.json of a success body — the handler
answers success whether or not a document existed. -/
def delete_project (db : Db) (id : DocId) : Outcome × Db :=
  match id with
  | .malformed _ => (.unhandled .castError, db)
  | .valid n => (.resp 200 .success, db.filter (fun r => r.1 != n))

/-- POST /contact (src/index.js lines 146-149): Contact.create, then
res.json of a success body — note res.json without res.status, so the
status is 200; a validation rejection escapes (no try/catch). -/
def post_contact (db : CDb) (b : ContactBody) (newId : Nat) :
    Outcome × CDb :=
  match contactCreate b with
  | .ok c => (.resp 200 .success, db ++ [(newId, c)])
  | .error e => (.unhandled e, db)

/-- DELETE /contacts/:id (src/index.js lines 156-159): same shape as the
project delete — the result of findByIdAndDelete is discarded and the
handler always answers success. -/
def delete_contact (db : CDb) (id : DocId) : Outcome × CDb :=
  match id with
  | .malformed _ => (.unhandled .castError, db)
  | .valid n => (.resp 200 .success, db.filter (fun r => r.1 != n))

/-- A JavaScript value reachable by the property read actions[aiReply]:
either one of the own string values of the literal, or a member inherited
from Object.prototype (a function, or for the proto accessor the
Object.prototype object itself). -/
inductive JsValue where
  | str (s : String)
  | protoMember (name : String)
  deriving DecidableEq

/-- The own properties of the actions object literal
(src/index.js lines 169-176). -/
def actionsOwn : List (String × String) :=
  [("ACTION_CV", "https://maviyaattar.vercel.app/Maviya_CV.pdf"),
   ("ACTION_GITHUB", "https://github.com/yourusername"),
   ("ACTION_LINKEDIN", "https://linkedin.com/in/yourprofile"),
   ("ACTION_INSTAGRAM", "https://instagram.com/yourid"),
   ("ACTION_DARK", "DARK_MODE"),
   ("ACTION_LIGHT", "LIGHT_MODE")]

/-- The own property names of Object.prototype: the actions object is a
plain object literal, so a property read with any of these names falls
through to the prototype and yields a function (or, for the proto
accessor, an object) rather than undefined. -/
def objectProtoProps : List String :=
  ["constructor", "hasOwnProperty", "isPrototypeOf",
   "propertyIsEnumerable", "toLocaleString", "toString", "valueOf",
   "__defineGetter__", "__defineSetter__", "__lookupGetter__",
   "__lookupSetter__", "__proto__"]

/-- JavaScript property lookup actions[k]: own properties first, then the
prototype chain (Object.prototype); anything else is undefined, modelled
as none. -/
def actionsGet (k : String) : Option JsValue :=
  match actionsOwn.find? (fun kv => kv.1 == k) with
  | some kv => some (.str kv.2)
  | none =>
    if objectProtoProps.contains k then some (.protoMember k) else none

/-- JavaScript truthiness of the reachable values: a string is truthy iff
non-empty; functions and objects are always truthy. -/
def jsTruthy : JsValue → Bool
  | .str s => s != ""
  | .protoMember _ => true

/-- Why the upstream chat-completion call can fail inside askAmeer: axios
rejects on network error or non-2xx status, and a well-formed 2xx body
without the expected choices structure makes the field access throw. -/
inductive UpstreamErr where
  | network
  | httpStatus (code : Nat)
  | malformedResponse
  deriving DecidableEq

/-- JSON body of a POST /ai/chat response. -/
inductive AiBody where
  | action (value : JsValue)
  | text (value : String)
  | err (error : String)
  deriving DecidableEq

/-- A POST /ai/chat HTTP response. -/
structure AiResp where
  status : Nat
  body : AiBody
  deriving DecidableEq

/-- The body of POST /ai/chat once askAmeer has resolved with the raw
completion text (src/index.js lines 167-182): trim the reply, test
actions[aiReply] for truthiness, and answer an action result on a truthy
lookup and a text result otherwise. -/
def ai_chat_ok (raw : String) : AiResp :=
  match actionsGet (jsTrim raw) with
  | some v =>
    if jsTruthy v then ⟨200, .action v⟩ else ⟨200, .text (jsTrim raw)⟩
  | none => ⟨200, .text (jsTrim raw)⟩

/-- POST /ai/chat (src/index.js lines 165-187): the whole handler body is
wrapped in try/catch, so any upstream failure is caught and answered as
HTTP 500 with the generic error body; the upstream is consulted exactly
once per request (no retry). -/
def ai_chat : Except UpstreamErr String → AiResp
  | .error _ => ⟨500, .err "AI failed"⟩
  | .ok raw => ai_chat_ok raw

/-- Every value actions[k] can produce: the six mapped own values or an
inherited Object.prototype member. -/
def allowedActionValues : List JsValue :=
  actionsOwn.map (fun kv => JsValue.str kv.2) ++
    objectProtoProps.map JsValue.protoMember

/-- Shape invariant of a successful /ai/chat body: an action value is one
of the six mapped values or an inherited Object.prototype member, and a
text body is unconstrained. -/
def AiBodyOk : AiBody → Prop
  | .action v => v ∈ allowedActionValues
  | .text _ => True
  | .err _ => False

end V2

theorem actionsGet_shape (k : String) (v : V2.JsValue)
    (h : V2.actionsGet k = some v) : v ∈ V2.allowedActionValues := by
  unfold V2.actionsGet at h
  cases hfind : V2.actionsOwn.find? (fun kv => kv.1 == k) with
  | some kv =>
    rw [hfind] at h
    cases h
    exact List.mem_append_left _
      (List.mem_map_of_mem _ (List.mem_of_find?_eq_some hfind))
  | none =>
    rw [hfind] at h
    by_cases hc : V2.objectProtoProps.contains k
    · rw [if_pos hc] at h
      cases h
      exact List.mem_append_right _
        (List.mem_map_of_mem _ (List.mem_of_elem_eq_true hc))
    · rw [if_neg hc] at h
      cases h

/-- C1: for every upstream reply whose trimmed text is one of the six
action tokens, POST /ai/chat answers HTTP 200 with an action body carrying
the mapped URL or mode token. -/
theorem ai_chat_action_token_maps (raw : String) (kv : String × String)
    (hmem : kv ∈ V2.actionsOwn) (htrim : jsTrim raw = kv.1) :
    V2.ai_chat (.ok raw) = ⟨200, .action (.str kv.2)⟩ := by
  show V2.ai_chat_ok raw = _
  unfold V2.ai_chat_ok
  rw [htrim]
  fin_cases hmem <;> rfl

/-- C1 witness: the trimmed reply ACTION_DARK yields an action body with
value DARK_MODE. -/
theorem ai_chat_action_dark_witness :
    ("ACTION_DARK", "DARK_MODE") ∈ V2.actionsOwn ∧
    jsTrim "ACTION_DARK" = "ACTION_DARK" ∧
    V2.ai_chat (.ok "ACTION_DARK") = ⟨200, .action (.str "DARK_MODE")⟩ :=
  ⟨by decide, by decide,
   ai_chat_action_token_maps "ACTION_DARK" ("ACTION_DARK", "DARK_MODE")
     (by decide) (by decide)⟩

/-- C2: evaluation at the failing input.  The trimmed reply toString is
not one of the six action keys, yet the handler does not relay it as a
text body: actions' property lookup finds the inherited
Object.prototype.toString, which is truthy, so the response is an action
body whose value is the inherited member, not a table entry. -/
theorem ai_chat_inherited_key_not_text :
    jsTrim "toString" = "toString" ∧
    "toString" ∉ V2.actionsOwn.map Prod.fst ∧
    V2.ai_chat (.ok "toString") =
      ⟨200, .action (.protoMember "toString")⟩ := by
  refine ⟨by decide, by decide, rfl⟩

/-- C3: whenever the upstream chat-completion call fails — network error,
non-success status, or malformed response — POST /ai/chat answers HTTP 500
with the generic error body; the handler's try/catch means the failure is
never an unhandled rejection, and the upstream is consulted once (the
handler is a function of a single upstream outcome). -/
theorem ai_chat_upstream_failure_500 (e : V2.UpstreamErr) :
    V2.ai_chat (.error e) = ⟨500, .err "AI failed"⟩ := rfl

/-- C10 counterexample: the trimmed reply valueOf produces a successful
response whose type is action but whose value is not one of the six mapped
values — it is the inherited Object.prototype.valueOf member. -/
theorem ai_chat_action_value_outside_table :
    (V2.ai_chat (.ok "valueOf")).body =
      .action (.protoMember "valueOf") ∧
    V2.JsValue.protoMember "valueOf" ∉
      V2.actionsOwn.map (fun kv => V2.JsValue.str kv.2) := by
  refine ⟨rfl, by decide⟩

/-- C10 amended: every POST /ai/chat response is either the HTTP 500
failure response, or HTTP 200 with a body of type action or text, where an
action value is one of the six mapped values or an inherited
Object.prototype member. -/
theorem ai_chat_response_shape (up : Except V2.UpstreamErr String) :
    V2.ai_chat up = ⟨500, .err "AI failed"⟩ ∨
    ((V2.ai_chat up).status = 200 ∧ V2.AiBodyOk (V2.ai_chat up).body) := by
  cases up with
  | error e => exact Or.inl rfl
  | ok raw =>
    right
    show (V2.ai_chat_ok raw).status = 200 ∧
      V2.AiBodyOk (V2.ai_chat_ok raw).body
    unfold V2.ai_chat_ok
    cases hget : V2.actionsGet (jsTrim raw) with
    | none => exact ⟨rfl, trivial⟩
    | some v =>
      dsimp only
      split
      · exact ⟨rfl, actionsGet_shape _ v hget⟩
      · exact ⟨rfl, trivial⟩

namespace V1

/-- Project record per the older schema (src/unnamed/part_000 lines
42-78): singular "category" and a required "image". -/
structure Project where
  name : String
  image : String
  category : String
  stack : String
  description : String
  liveLink : String
  sourceLink : String
  deriving DecidableEq

/-- JSON bodies sent by the modelled V1 route (the details field of the
error bodies is omitted; only the error message is modelled). -/
inductive Body where
  | project (p : Project)
  | err (error : String)
  deriving DecidableEq

/-- An HTTP response of the V1 GET /projects/:id route. -/
structure Resp where
  status : Nat
  body : Body
  deriving DecidableEq

/-- The projects collection in the V1 revision. -/
abbrev Db := List (Nat × Project)

/-- GET /projects/:id (src/unnamed/part_000 lines 127-137): findById
inside try/catch.  A malformed id makes the cast throw, answered as HTTP
400 with an invalid-id error; a well-formed id with no matching document
resolves null, answered as HTTP 404; otherwise the document is returned
as HTTP 200. -/
def get_project (db : Db) (id : DocId) : Resp :=
  match id with
  | .malformed _ => ⟨400, .err "Invalid project ID"⟩
  | .valid n =>
    match db.find? (fun r => r.1 == n) with
    | none => ⟨404, .err "Project not found"⟩
    | some r => ⟨200, .project r.2⟩

end V1

/-- A stored project used as concrete test data for the V2 routes. -/
def sampleProject : V2.Project :=
  { name := "Portfolio", image := "", categories := ["fullstack"],
    stack := "Node", description := "demo site", liveLink := "",
    sourceLink := "" }

/-- A projects collection holding exactly the document with id 1. -/
def dbOne : V2.Db := [(1, sampleProject)]

/-- The empty update body: no schema path present. -/
def emptyBody : V2.ProjectBody :=
  { name? := none, image? := none, categories? := none, stack? := none,
    description? := none, liveLink? := none, sourceLink? := none }

/-- An update body setting "categories" to a value outside the enum. -/
def badCatBody : V2.ProjectBody :=
  { emptyBody with categories? := some ["foo"] }

/-- A create body omitting the required "name" while every other field is
valid. -/
def noNameBody : V2.ProjectBody :=
  { emptyBody with
    categories? := some ["ai"], stack? := some "Node",
    description? := some "demo" }

/-- A create body whose "categories" holds a value outside the enum while
every other field is valid. -/
def badCatCreateBody : V2.ProjectBody :=
  { emptyBody with
    name? := some "X", categories? := some ["webgl"],
    stack? := some "Node", description? := some "demo" }

/-- C4: evaluation at the failing input.  On the current revision, a PUT
with the well-formed id 2 against a store holding only id 1 does not
answer 404: findByIdAndUpdate resolves null and the handler answers
res.json(null), HTTP 200 with body null, leaving the store unchanged. -/
theorem put_project_missing_id_200_null :
    V2.put_project dbOne (.valid 2) emptyBody =
      (.resp 200 .jnull, dbOne) := rfl

/-- C5: evaluation at the failing input.  On the current revision, a PUT
on the existing id 1 whose body sets "categories" to a non-enum value does
not answer 400: the update-validator rejection escapes the handler
uncaught, and the stored record is unchanged. -/
theorem put_project_invalid_update_thrown :
    V2.put_project dbOne (.valid 1) badCatBody =
      (.unhandled .validationError, dbOne) := rfl

/-- C6: evaluation at the failing inputs.  On the current revision, a POST
/projects omitting the required "name", or carrying a category outside the
enum, does not answer 400: the validation rejection escapes the handler
uncaught; nothing is persisted. -/
theorem post_projects_invalid_thrown :
    V2.post_projects [] noNameBody 1 = (.unhandled .validationError, []) ∧
    V2.post_projects [] badCatCreateBody 1 =
      (.unhandled .validationError, []) := ⟨rfl, rfl⟩

/-- C7: evaluation at the failing input.  On the current revision, the
delete routes discard the findByIdAndDelete result: deleting id 1 from a
store holding only id 1 answers success, and deleting the same id again
from the now-empty store answers success as well instead of 404; the
contacts delete behaves the same on an absent id. -/
theorem delete_twice_both_succeed :
    V2.delete_project dbOne (.valid 1) = (.resp 200 .success, []) ∧
    V2.delete_project [] (.valid 1) = (.resp 200 .success, []) ∧
    V2.delete_contact [] (.valid 9) = (.resp 200 .success, []) :=
  ⟨rfl, rfl, rfl⟩

/-- A well-formed contact submission. -/
def goodContactBody : V2.ContactBody :=
  { name? := some "Asha", email? := some "asha@mail.test",
    message? := some "hello" }

/-- A contact submission missing the required email. -/
def noEmailBody : V2.ContactBody :=
  { name? := some "Asha", email? := none, message? := some "hello" }

/-- C9: evaluation at the failing inputs.  On the current revision, a
well-formed contact submission is answered with the success body at HTTP
200 (res.json without res.status, not 201), and a submission missing
email does not answer 400: the validation rejection escapes the handler
uncaught and nothing is persisted. -/
theorem post_contact_status_divergence :
    V2.post_contact [] goodContactBody 1 =
      (.resp 200 .success,
       [(1, { name := "Asha", email := "asha@mail.test",
              message := "hello" })]) ∧
    V2.post_contact [] noEmailBody 1 =
      (.unhandled .validationError, []) := ⟨rfl, rfl⟩

/-- C8: the V1 Get-by-id operation answers, for a well-formed identifier,
the matching record as HTTP 200 when one exists and HTTP 404 when none
does, and answers HTTP 400 for every malformed identifier. -/
theorem get_project_by_id_spec (db : V1.Db) (n : Nat) :
    (db.find? (fun r => r.1 == n) = none →
      V1.get_project db (.valid n) = ⟨404, .err "Project not found"⟩) ∧
    (∀ r, db.find? (fun r => r.1 == n) = some r →
      V1.get_project db (.valid n) = ⟨200, .project r.2⟩) ∧
    (∀ s, V1.get_project db (.malformed s) =
      ⟨400, .err "Invalid project ID"⟩) := by
  refine ⟨fun h => ?_, fun r h => ?_, fun s => rfl⟩
  · simp only [V1.get_project, h]
  · simp only [V1.get_project, h]

/-- A stored V1 project used as concrete test data. -/
def sampleProjectV1 : V1.Project :=
  { name := "Portfolio", image := "shot.png", category := "fullstack",
    stack := "Node", description := "demo site", liveLink := "",
    sourceLink := "" }

/-- A V1 projects collection holding exactly the document with id 1. -/
def dbOneV1 : V1.Db := [(1, sampleProjectV1)]

/-- C8 witness: on a store holding only id 1, id 5 answers 404, id 1
answers the stored record, and a malformed id answers 400. -/
theorem get_project_by_id_witness :
    (dbOneV1.find? (fun r => r.1 == 5) = none ∧
      V1.get_project dbOneV1 (.valid 5) =
        ⟨404, .err "Project not found"⟩) ∧
    (dbOneV1.find? (fun r => r.1 == 1) = some (1, sampleProjectV1) ∧
      V1.get_project dbOneV1 (.valid 1) =
        ⟨200, .project sampleProjectV1⟩) ∧
    V1.get_project dbOneV1 (.malformed "zzz") =
      ⟨400, .err "Invalid project ID"⟩ :=
  ⟨⟨by decide, (get_project_by_id_spec dbOneV1 5).1 (by decide)⟩,
   ⟨by decide,
    (get_project_by_id_spec dbOneV1 1).2.1 (1, sampleProjectV1)
      (by decide)⟩,
   (get_project_by_id_spec dbOneV1 1).2.2 "zzz"⟩
